import Mathlib

/-!
Verification development for the visitor-registration form-automation scripts
(src/form_automation_lightweight.py, with the shared logic also present in
src/form_automation.py).  The element-interaction engine is shallowly embedded:
the browser DOM is a list of elements plus a map from selector strings to the
lists of element indices those selectors resolve to (in document order); the
selenium driver calls used by the scripts (find_element, find_elements,
is_displayed, is_enabled, get_attribute value, clear, send_keys, click,
ActionChains key input, page_source) are modelled over that state.  Clicking
and global keyboard input may change the page arbitrarily, so their effect is a
parameter of the model (a Behavior); per-element keystrokes may be dropped by
the browser, which the model captures with an accepts flag on each element
(the source code of handle_mobile_number_page verifies its writes by read-back
precisely because real drivers can drop input).  The execution log mirrors the
log_step records of the lightweight script.
-/

namespace FormBot

/-- Single quote character, used when assembling the XPath selector strings of
the source verbatim. -/
def sq : String := "\x27"

/-- Substring test, modelling the Python `needle in haystack` operator on
strings (for a non-empty needle). -/
def listInfixCheck (needle : List Char) : List Char → Bool
  | [] => needle.isEmpty
  | c :: rest => needle.isPrefixOf (c :: rest) || listInfixCheck needle rest

/-- Substring test on strings: strContains s pat is true when pat occurs in s. -/
def strContains (s pat : String) : Bool :=
  listInfixCheck pat.data s.data

/-- ASCII lower-casing of one character, modelling Python str.lower per char. -/
def lowerChar (c : Char) : Char :=
  if c.toNat ≥ 65 && c.toNat ≤ 90 then Char.ofNat (c.toNat + 32) else c

/-- Lower-casing of a string, modelling Python str.lower. -/
def lowerStr (s : String) : String :=
  ⟨s.data.map lowerChar⟩

/-- Whitespace stripping, modelling Python str.strip. -/
def strTrim (s : String) : String :=
  ⟨((s.data.dropWhile Char.isWhitespace).reverse.dropWhile Char.isWhitespace).reverse⟩

/-- Replacement of spaces by underscores, modelling the replace call in the
step names of log_step: description.lower().replace(" ", "_"). -/
def stepSlug (s : String) : String :=
  ⟨(lowerStr s).data.map (fun c => if c == ' ' then '_' else c)⟩

/-- Element of the page, as observed through the selenium element API used by
the scripts.  The accepts flag states whether keystrokes sent to the element
take effect on its value attribute (a real driver can drop them, which is why
the source verifies some writes by read-back). -/
structure Elem where
  displayed : Bool
  enabled : Bool
  value : String
  text : String
  accepts : Bool
deriving DecidableEq, Repr, Inhabited

/-- Page state: elements (indexed by position), the resolution of each selector
string to element indices in document order (find_elements), and the page
source text consulted by the mobile heuristic. -/
structure DOM where
  elems : List Elem
  queries : List (String × List Nat)
  pageSource : String
deriving DecidableEq, Repr, Inhabited

/-- Resolution of a selector: driver.find_elements. -/
def DOM.findElements (d : DOM) (sel : String) : List Nat :=
  match d.queries.lookup sel with
  | some is => is
  | none => []

/-- Resolution of driver.find_element: the first match of the selector in
document order, with its element record; none models NoSuchElementException. -/
def DOM.findFirst? (d : DOM) (sel : String) : Option (Nat × Elem) :=
  match (d.findElements sel).head? with
  | none => none
  | some i =>
    match d.elems[i]? with
    | none => none
    | some e => some (i, e)

/-- Resolution of wait.until(EC.element_to_be_clickable(...)): the first match
of the selector, provided it is displayed and enabled; none models the
TimeoutException raised when the wait expires. -/
def DOM.waitClickable? (d : DOM) (sel : String) : Option (Nat × Elem) :=
  match d.findFirst? sel with
  | none => none
  | some (i, e) => if e.displayed && e.enabled then some (i, e) else none

/-- Replacement of the element at index i. -/
def DOM.setElem (d : DOM) (i : Nat) (e : Elem) : DOM :=
  { d with elems := d.elems.set i e }

/-- Element-level clear(): the value attribute becomes empty. -/
def clearElem (e : Elem) : Elem := { e with value := "" }

/-- Element-level send_keys(s): the keystrokes are appended to the value when
the element accepts them, and dropped otherwise. -/
def sendKeysElem (e : Elem) (s : String) : Elem :=
  if e.accepts then { e with value := e.value ++ s } else e

/-- Observable driver actions, recorded in order. -/
inductive Event where
  | click (i : Nat)
  | clearE (i : Nat)
  | sendKeysE (i : Nat) (s : String)
  | actionKeys (s : String)
  | actionEnter
deriving DecidableEq, Repr

/-- Effects that page-changing driver actions may have; the scripts treat these
as opaque browser behavior, so the model takes them as parameters. -/
structure Behavior where
  clickEffect : DOM → Nat → DOM
  keysEffect : DOM → String → DOM
  enterEffect : DOM → DOM

/-- Record appended by VisitorRegistrationBot.log_step. -/
structure LogEntry where
  step : String
  status : String
  msg : String
deriving DecidableEq, Repr

/-- Execution log of the lightweight script: the steps list, the success flag
and the error field of self.execution_log (timestamps are plumbing and are
omitted). -/
structure ExecLog where
  steps : List LogEntry
  success : Bool
  error : Option String
deriving DecidableEq, Repr

/-- Full bot state: the page, the trace of driver actions performed so far and
the execution log. -/
structure Bot where
  dom : DOM
  trace : List Event
  log : ExecLog
deriving Repr

/-- Append of one log_step record. -/
def logStep (b : Bot) (step status msg : String) : Bot :=
  { b with log := { b.log with steps := b.log.steps ++ [⟨step, status, msg⟩] } }

/-- Click on the element at index i: recorded in the trace, with the page
transformed by the behavior parameter. -/
def clickElem (B : Behavior) (b : Bot) (i : Nat) : Bot :=
  { b with dom := B.clickEffect b.dom i, trace := b.trace ++ [Event.click i] }

/-- ActionChains(driver).send_keys(s).perform(). -/
def actionSend (B : Behavior) (b : Bot) (s : String) : Bot :=
  { b with dom := B.keysEffect b.dom s, trace := b.trace ++ [Event.actionKeys s] }

/-- ActionChains(driver).send_keys(Keys.ENTER).perform(). -/
def actionEnterKey (B : Behavior) (b : Bot) : Bot :=
  { b with dom := B.enterEffect b.dom, trace := b.trace ++ [Event.actionEnter] }

/-- Fresh bot over a loaded page, with the browser_init step already logged as
in VisitorRegistrationBot.__init__ of the lightweight script. -/
def mkBot (d : DOM) : Bot :=
  { dom := d
    trace := []
    log := { steps := [⟨"browser_init", "success", "Browser initialized"⟩]
             success := false
             error := none } }

/-- XPath used by both dropdown strategy 1 and the radio fallback:
//*[contains(text(), t)] with t single-quoted as in the f-strings of the
source. -/
def containsTextSel (t : String) : String :=
  "//*[contains(text(), " ++ sq ++ t ++ sq ++ ")]"

/-- XPath of radio strategy 1: radio input whose value attribute contains t. -/
def valueRadioSel (t : String) : String :=
  "//input[@type=" ++ sq ++ "radio" ++ sq ++ " and contains(@value, " ++ sq ++ t ++ sq ++ ")]"

/-- XPath of radio strategy 2: label whose text contains t. -/
def labelTextSel (t : String) : String :=
  "//label[contains(text(), " ++ sq ++ t ++ sq ++ ")]"

/-- XPath of radio strategy 3a: radio input that is a preceding sibling of the
text match. -/
def precedingRadioSel (t : String) : String :=
  containsTextSel t ++ "/preceding-sibling::input[@type=" ++ sq ++ "radio" ++ sq ++ "]"

/-- XPath of radio strategy 3b: radio input that is a following sibling of the
text match. -/
def followingRadioSel (t : String) : String :=
  containsTextSel t ++ "/following-sibling::input[@type=" ++ sq ++ "radio" ++ sq ++ "]"

/-- XPath of radio strategy 3c: radio input that is a child of the parent of
the text match. -/
def parentRadioSel (t : String) : String :=
  containsTextSel t ++ "/../input[@type=" ++ sq ++ "radio" ++ sq ++ "]"

/-- Selector list radio_selectors of handle_radio_button, in source order. -/
def radioSelectors (t : String) : List String :=
  [valueRadioSel t, labelTextSel t, precedingRadioSel t, followingRadioSel t, parentRadioSel t]

/-- Selector list option_selectors of dropdown strategy 2 (lightweight
version), in source order. -/
def optionSelectors (t : String) : List String :=
  [ "//div[@role=" ++ sq ++ "option" ++ sq ++ " and contains(text(), " ++ sq ++ t ++ sq ++ ")]"
  , "//li[contains(text(), " ++ sq ++ t ++ sq ++ ")]"
  , "//*[@data-automation-id=" ++ sq ++ "choice" ++ sq ++ " and contains(text(), " ++ sq ++ t ++ sq ++ ")]" ]

/-- Selector list submit_selectors of click_submit_button (lightweight
version), in source order. -/
def submitSelectors : List String :=
  [ "//button[contains(text(), " ++ sq ++ "Submit" ++ sq ++ ")]"
  , "//button[@type=" ++ sq ++ "submit" ++ sq ++ " and contains(text(), " ++ sq ++ "Submit" ++ sq ++ ")]"
  , "//input[@type=" ++ sq ++ "submit" ++ sq ++ "]"
  , "//button[@data-automation-id=" ++ sq ++ "submitButton" ++ sq ++ "]" ]

/-- XPath of the Next button in click_next_button. -/
def nextButtonSel : String :=
  "//button[@data-automation-id=" ++ sq ++ "nextButton" ++ sq ++ "]"

/-- Selector of the generic text inputs used by mobile strategies 1 and 2. -/
def mobileTextSel : String :=
  "//input[@type=" ++ sq ++ "text" ++ sq ++ " or @data-automation-id=" ++ sq ++ "textInput" ++ sq ++ "]"

/-- Selector of tel-typed inputs used by mobile strategy 3. -/
def telSel : String :=
  "//input[@type=" ++ sq ++ "tel" ++ sq ++ "]"

/-- Selector of the radio-button presence probe in automate_form. -/
def radioTypeSel : String :=
  "//input[@type=" ++ sq ++ "radio" ++ sq ++ "]"

/-- Anchor element probed by wait_for_page_load: By.ID form-main-content1. -/
def pageAnchorSel : String := "id:form-main-content1"

/-- XPath of the visitor-name input on page 1. -/
def nameInputXpath : String :=
  "//*[@id=" ++ sq ++ "question-list" ++ sq ++ "]/div[2]/div[2]/div[1]/span[1]/input[1]"

/-- XPath of the Access Level dropdown trigger on page 1. -/
def accessXpath : String :=
  "//*[@id=" ++ sq ++ "question-list" ++ sq ++ "]/div[3]/div[2]/div[1]/div[1]/div[1]"

/-- XPath of the Purpose dropdown trigger on page 1. -/
def purposeXpath : String :=
  "//*[@id=" ++ sq ++ "question-list" ++ sq ++ "]/div[4]/div[2]/div[1]/div[1]/div[1]"

/-- XPath of the additional-information textarea on page 1. -/
def addInfoXpath : String :=
  "//*[@id=" ++ sq ++ "question-list" ++ sq ++ "]/div[5]/div[2]/div[1]/span[1]/textarea[1]"

/-- Alternate radio value text tried by automate_form. -/
def chineseYes : String := "是"

/-- Form data handed to one run (get_form_data of the lightweight script). -/
structure FormData where
  url : String
  name : String
  access_level : String
  purpose : String
  company : String
  mobile : String
  additional_info : String
deriving DecidableEq, Repr

/-- Log-step name produced for a fill step: fill_ plus the lowered,
underscored description. -/
def fillStepName (description : String) : String :=
  "fill_" ++ stepSlug description

/-- Log-step name produced for a dropdown step. -/
def dropdownStepName (description : String) : String :=
  "dropdown_" ++ stepSlug description

/-- Translation of VisitorRegistrationBot.fill_text_input (lightweight lines
110 to 129; identical logic in form_automation.py lines 101 to 122): wait for
the element to be clickable, scroll, clear, send the keys and report success;
the TimeoutException of the wait is the only failure path, and no read-back of
the element is performed. -/
def fill_text_input (b : Bot) (xpath value description : String) : Bot × Bool :=
  match b.dom.waitClickable? xpath with
  | none =>
    (logStep b (fillStepName description) ("error") ("timeout"), false)
  | some (i, e) =>
    let e2 := sendKeysElem (clearElem e) value
    let b1 := { b with dom := b.dom.setElem i e2
                       trace := b.trace ++ [Event.clearE i, Event.sendKeysE i value] }
    (logStep b1 (fillStepName description) ("success") ("Filled " ++ description), true)

/-- Search of dropdown strategy 1: the loop over the elements matching
//*[contains(text(), t)], returning the first one that is displayed and whose
stripped text equals the option text. -/
def firstExactVisible (d : DOM) (ids : List Nat) (t : String) : Option (Nat × Elem) :=
  match ids with
  | [] => none
  | i :: rest =>
    match d.elems[i]? with
    | none => firstExactVisible d rest t
    | some e =>
      if e.displayed && strTrim e.text == t then some (i, e)
      else firstExactVisible d rest t

/-- Search of a selector list by find_element with a displayed check: the loop
shape shared by dropdown strategy 2 and the main loop of handle_radio_button.
A selector whose query is empty raises NoSuchElementException in the source,
which the loop catches and skips; a selector whose first match is not
displayed is likewise skipped. -/
def firstSelectorHit (d : DOM) (sels : List String) : Option (Nat × Elem) :=
  match sels with
  | [] => none
  | s :: rest =>
    match d.findFirst? s with
    | none => firstSelectorHit d rest
    | some (i, e) => if e.displayed then some (i, e) else firstSelectorHit d rest

/-- Search of a selector list by find_element with a displayed-and-enabled
check: the loop shape of click_submit_button. -/
def firstClickableHit (d : DOM) (sels : List String) : Option (Nat × Elem) :=
  match sels with
  | [] => none
  | s :: rest =>
    match d.findFirst? s with
    | none => firstClickableHit d rest
    | some (i, e) => if e.displayed && e.enabled then some (i, e) else firstClickableHit d rest

/-- Translation of VisitorRegistrationBot.handle_microsoft_dropdown
(lightweight lines 131 to 204; form_automation.py lines 124 to 207 adds one
more strategy-2 selector but is otherwise identical): open the dropdown, then
try strategy 1 (exact visible-text match), strategy 2 (option-container
selectors) and strategy 3 (ActionChains keyboard entry plus ENTER).  The
returned option records which strategy set option_found, mirroring the three
distinct success log lines of the source; none mirrors the False return of the
outer exception handler when the dropdown trigger is not clickable.  Strategy 3
sets option_found unconditionally, so the final not-found branch of the source
is unreachable. -/
def handle_microsoft_dropdown (B : Behavior) (b : Bot) (xpath option_text description : String) :
    Bot × Option Nat :=
  match b.dom.waitClickable? xpath with
  | none =>
    (logStep b (dropdownStepName description) ("error") ("timeout"), none)
  | some (i, _) =>
    let b1 := clickElem B b i
    match firstExactVisible b1.dom (b1.dom.findElements (containsTextSel option_text)) option_text with
    | some (j, _) =>
      let b2 := clickElem B b1 j
      (logStep b2 (dropdownStepName description) ("success") ("Selected " ++ option_text), some 1)
    | none =>
      match firstSelectorHit b1.dom (optionSelectors option_text) with
      | some (j, _) =>
        let b2 := clickElem B b1 j
        (logStep b2 (dropdownStepName description) ("success") ("Selected " ++ option_text), some 2)
      | none =>
        let b2 := actionEnterKey B (actionSend B b1 option_text)
        (logStep b2 (dropdownStepName description) ("success") ("Selected " ++ option_text), some 3)

/-- Translation of VisitorRegistrationBot.click_next_button (lightweight lines
206 to 228; form_automation.py lines 209 to 233): wait for the Next button to
be clickable, scroll, click, sleep a fixed two seconds and report success; the
TimeoutException of the wait is the only failure path and no page-change
detection is performed after the click. -/
def click_next_button (B : Behavior) (b : Bot) : Bot × Bool :=
  match b.dom.waitClickable? nextButtonSel with
  | none => (logStep b ("click_next") ("error") ("timeout"), false)
  | some (i, _) =>
    let b1 := clickElem B b i
    (logStep b1 ("click_next") ("success") ("Next button clicked"), true)

/-- Translation of VisitorRegistrationBot.handle_radio_button (lightweight
lines 230 to 283; form_automation.py lines 300 to 353): try the five
radio_selectors in order by find_element, clicking the first whose first match
is displayed; when all five fail, the alternative approach clicks the bare
text match //*[contains(text(), t)] if displayed; exceptions from failed
selectors are swallowed by the loop. -/
def handle_radio_button (B : Behavior) (b : Bot) (value_text description : String) : Bot × Bool :=
  match firstSelectorHit b.dom (radioSelectors value_text) with
  | some (i, _) =>
    let b1 := clickElem B b i
    (logStep b1 ("radio_button") ("success") ("Selected " ++ value_text), true)
  | none =>
    match b.dom.findFirst? (containsTextSel value_text) with
    | some (i, e) =>
      if e.displayed then
        let b1 := clickElem B b i
        (logStep b1 ("radio_button") ("success") ("Selected " ++ value_text), true)
      else
        (logStep b ("radio_button") ("error") ("Radio button " ++ value_text ++ " not found"), false)
    | none =>
      (logStep b ("radio_button") ("error") ("Radio button " ++ value_text ++ " not found"), false)

/-- Translation of VisitorRegistrationBot.click_submit_button (lightweight
lines 367 to 398): try the four submit_selectors in order by find_element,
clicking the first whose first match is displayed and enabled; returns False
when all fail.  No log_step record is written by this method. -/
def click_submit_button (B : Behavior) (b : Bot) : Bot × Bool :=
  match firstClickableHit b.dom submitSelectors with
  | some (i, _) => (clickElem B b i, true)
  | none => (b, false)

/-- Attempt of the inner loop of handle_mobile_number_page on one candidate
element: skip it unless displayed and enabled, skip non-blank fields under the
empty-field strategy, otherwise clear it, send the mobile number and accept it
exactly when the read-back of the value attribute contains the number (logging
the mobile_number success inside the loop as the source does at line 342). -/
def tryMobileElem (b : Bot) (i : Nat) (emptySearch : Bool) (mob : String) : Bot × Bool :=
  match b.dom.elems[i]? with
  | none => (b, false)
  | some e =>
    if e.displayed && e.enabled then
      if emptySearch && strTrim e.value != "" then (b, false)
      else
        let e2 := sendKeysElem (clearElem e) mob
        let b1 := { b with dom := b.dom.setElem i e2
                           trace := b.trace ++ [Event.clearE i, Event.sendKeysE i mob] }
        if strContains e2.value mob then
          (logStep b1 ("mobile_number") ("success") ("Filled mobile: " ++ mob), true)
        else (b1, false)
    else (b, false)

/-- Scan of the candidate elements of one mobile strategy, stopping at the
first accepted element. -/
def tryMobileElems (b : Bot) (ids : List Nat) (emptySearch : Bool) (mob : String) : Bot × Bool :=
  match ids with
  | [] => (b, false)
  | i :: rest =>
    match tryMobileElem b i emptySearch mob with
    | (b1, true) => (b1, true)
    | (b1, false) => tryMobileElems b1 rest emptySearch mob

/-- Translation of VisitorRegistrationBot.handle_mobile_number_page
(lightweight lines 285 to 365): the three strategies in order (context search
gated on the page source containing mobile, empty-field search, tel-input
search), each scanning its candidates until one read-back verifies; on total
failure the mobile_number error is logged; then click_submit_button runs, and
only on its success is a form_submit success step logged.  A submit failure is
not logged as a step and is not propagated. -/
def handle_mobile_number_page (B : Behavior) (b : Bot) (fd : FormData) : Bot :=
  let mob := fd.mobile
  let r1 :=
    if strContains (lowerStr b.dom.pageSource) ("mobile") then
      tryMobileElems b (b.dom.findElements mobileTextSel) false mob
    else (b, false)
  let r2 :=
    if r1.2 then r1
    else tryMobileElems r1.1 (r1.1.dom.findElements mobileTextSel) true mob
  let r3 :=
    if r2.2 then r2
    else tryMobileElems r2.1 (r2.1.dom.findElements telSel) false mob
  let b4 :=
    if r3.2 then r3.1
    else logStep r3.1 ("mobile_number") ("error") ("Mobile field not found")
  match click_submit_button B b4 with
  | (b5, true) => logStep b5 ("form_submit") ("success") ("Form submitted")
  | (b5, false) => b5

/-- Translation of wait_for_page_load (lightweight lines 97 to 108): presence
of the form-main-content1 anchor decides success. -/
def wait_for_page_load (b : Bot) : Bot × Bool :=
  if (b.dom.findElements pageAnchorSel).isEmpty then
    (logStep b ("page_load") ("error") ("Page load timeout"), false)
  else
    (logStep b ("page_load") ("success") ("Page loaded"), true)

/-- Page-1 interactions of automate_form (lightweight lines 414 to 436): the
name fill, the two dropdowns and the additional-information fill, each result
assigned and then discarded by the source. -/
def page1Fill (B : Behavior) (b : Bot) (fd : FormData) : Bot :=
  let r1 := fill_text_input b nameInputXpath fd.name ("Visitor Name")
  let r2 := handle_microsoft_dropdown B r1.1 accessXpath fd.access_level ("Access Level")
  let r3 := handle_microsoft_dropdown B r2.1 purposeXpath fd.purpose ("Purpose")
  let r4 := fill_text_input r3.1 addInfoXpath fd.additional_info ("Additional Information")
  r4.1

/-- Radio, Next and mobile phase of automate_form (lightweight lines 438 to
450): when radio inputs are present, try Yes then the Chinese variant; only on
a radio success is the Next click attempted, and only on a Next success is the
mobile page handled. -/
def radioPhase (B : Behavior) (b : Bot) (fd : FormData) : Bot :=
  if (b.dom.findElements radioTypeSel).isEmpty then b
  else
    let r1 := handle_radio_button B b ("Yes") ("Locally Registered Number")
    let r2 :=
      if r1.2 then r1
      else handle_radio_button B r1.1 chineseYes ("Locally Registered Number (Chinese)")
    if r2.2 then
      match click_next_button B r2.1 with
      | (b3, true) => handle_mobile_number_page B b3 fd
      | (b3, false) => b3
    else r2.1

/-- Translation of automate_form (lightweight lines 400 to 458): navigate (the
initial DOM is the loaded page), wait for the page anchor, run the page-1
fills and the radio phase, and set the success flag of the execution log
unconditionally at the end; the only exception that escapes is the page-load
failure, returned here as a true raised flag with the error recorded. -/
def automate_form (B : Behavior) (b : Bot) (fd : FormData) : Bot × Bool :=
  match wait_for_page_load b with
  | (b1, false) =>
    ({ b1 with log := { b1.log with error := some ("Page failed to load") } }, true)
  | (b1, true) =>
    let b2 := radioPhase B (page1Fill B b1 fd) fd
    ({ b2 with log := { b2.log with success := true } }, false)

/-- Translation of main of the lightweight script (lines 489 to 528): run
automate_form on a fresh bot over the loaded page and exit 0 unless an
exception escaped, in which case exit 1. -/
def main (B : Behavior) (d : DOM) (fd : FormData) : Nat :=
  match automate_form B (mkBot d) fd with
  | (_, true) => 1
  | (_, false) => 0

/-- Test of whether the first document-order match of a selector is displayed:
the condition under which the find_element loops of handle_radio_button and of
dropdown strategy 2 accept a selector. -/
def headDisplayed (d : DOM) (s : String) : Bool :=
  match d.findFirst? s with
  | some (_, e) => e.displayed
  | none => false

/-- Test of whether the first document-order match of a selector is displayed
and enabled: the condition under which click_submit_button accepts a
selector. -/
def headClickable (d : DOM) (s : String) : Bool :=
  match d.findFirst? s with
  | some (_, e) => e.displayed && e.enabled
  | none => false

/-- Behavior in which clicks and keyboard input leave the page unchanged (a
legal driver: nothing in the scripts assumes otherwise). -/
def idBehavior : Behavior :=
  { clickEffect := fun d _ => d, keysEffect := fun d _ => d, enterEffect := fun d => d }

/-- Form data of get_form_data with its default values. -/
def fd0 : FormData :=
  { url := "https://forms.office.com/Pages/ResponsePage.aspx"
    name := "Rizwan Ahamed"
    access_level := "5"
    purpose := "Meeting"
    company := "Cognizant"
    mobile := "87686853"
    additional_info := "Daily automated visitor registration" }

/-- Displayed and enabled element with a given value that accepts keystrokes. -/
def liveElem (v : String) : Elem :=
  { displayed := true, enabled := true, value := v, text := "", accepts := true }

/-- Displayed and enabled element that silently drops keystrokes. -/
def deafElem (v : String) : Elem :=
  { displayed := true, enabled := true, value := v, text := "", accepts := false }

/-- Hidden element. -/
def hiddenElem : Elem :=
  { displayed := false, enabled := true, value := "", text := "", accepts := true }

/-- Page for the submit-failure run: anchor present, one radio input reachable
through the value selector, a Next button, a mobile input, and no element
matching any submit selector. -/
def domNoSubmit : DOM :=
  { elems := [liveElem "", liveElem "", liveElem "", liveElem ""]
    queries := [ (pageAnchorSel, [0])
               , (radioTypeSel, [1])
               , (valueRadioSel ("Yes"), [1])
               , (nextButtonSel, [2])
               , (mobileTextSel, [3]) ]
    pageSource := "Mobile number" }

/-- Page with one input that drops keystrokes, for the fill read-back run. -/
def domDeafInput : DOM :=
  { elems := [deafElem "old"]
    queries := [(nameInputXpath, [0])]
    pageSource := "" }

/-- Page with a clickable dropdown trigger and no option elements, for the
keyboard-strategy run. -/
def domBareDropdown : DOM :=
  { elems := [liveElem ""]
    queries := [(accessXpath, [0])]
    pageSource := "" }

/-- Page where the radio value selector resolves to a hidden first match and a
visible second match, and nothing else resolves. -/
def domHiddenFirstRadio : DOM :=
  { elems := [hiddenElem, liveElem ""]
    queries := [(valueRadioSel ("Yes"), [0, 1])]
    pageSource := "" }

/-- Page whose radio probe finds only a hidden radio input, so both radio
variants fail, for the consent-gate run. -/
def domHiddenRadioOnly : DOM :=
  { elems := [liveElem "", hiddenElem]
    queries := [(pageAnchorSel, [0]), (radioTypeSel, [1])]
    pageSource := "" }

/-- Page with a clickable Next button and the anchor present. -/
def domNextOnly : DOM :=
  { elems := [liveElem "", liveElem ""]
    queries := [(pageAnchorSel, [0]), (nextButtonSel, [1])]
    pageSource := "" }

/-- Empty page, used as the after-click page of a navigation whose new page
never shows the anchor again. -/
def domBlank : DOM :=
  { elems := [], queries := [], pageSource := "" }

/-- Behavior in which every click navigates to the blank page. -/
def blankClickBehavior : Behavior :=
  { clickEffect := fun _ _ => domBlank, keysEffect := fun d _ => d, enterEffect := fun d => d }

/-- Page for the mobile-heuristic run: two candidate inputs, the first of
which drops keystrokes while carrying an initial value, the second of which
accepts them. -/
def domTwoMobileInputs : DOM :=
  { elems := [deafElem "peek", liveElem ""]
    queries := [(mobileTextSel, [0, 1])]
    pageSource := "Mobile number" }

/-- Page on which only the label selector of the radio strategies resolves. -/
def domLabelRadio : DOM :=
  { elems := [liveElem ""]
    queries := [(labelTextSel ("Yes"), [0])]
    pageSource := "" }

/-- Page with a single fillable name input. -/
def domOneInput : DOM :=
  { elems := [liveElem "x"]
    queries := [(nameInputXpath, [0])]
    pageSource := "" }

/-- Page with only the anchor, for the degraded-success run. -/
def domAnchorOnly : DOM :=
  { elems := [liveElem ""]
    queries := [(pageAnchorSel, [0])]
    pageSource := "" }

/-- Element record of a successful find_element is the record stored at the
returned index. -/
theorem findFirst?_elem {d : DOM} {s : String} {i : Nat} {e : Elem}
    (h : d.findFirst? s = some (i, e)) : d.elems[i]? = some e := by
  unfold DOM.findFirst? at h
  split at h
  · simp at h
  · rename_i i0 h1
    split at h
    · simp at h
    · rename_i e0 h2
      simp at h
      obtain ⟨hi, he⟩ := h
      subst hi; subst he; exact h2

/-- Successful clickability wait implies the element was found displayed and
enabled. -/
theorem waitClickable?_findFirst {d : DOM} {s : String} {i : Nat} {e : Elem}
    (h : d.waitClickable? s = some (i, e)) :
    d.findFirst? s = some (i, e) ∧ e.displayed = true ∧ e.enabled = true := by
  unfold DOM.waitClickable? at h
  split at h
  · simp at h
  · rename_i j e2 h1
    split at h
    · simp at h
      obtain ⟨hj, he⟩ := h
      subst hj; subst he
      exact ⟨h1, by simp_all, by simp_all⟩
    · simp at h

/-- Index of a successful find_element is the head of the query. -/
theorem findFirst?_head {d : DOM} {s : String} {i : Nat} {e : Elem}
    (h : d.findFirst? s = some (i, e)) : (d.findElements s).head? = some i := by
  unfold DOM.findFirst? at h
  split at h
  · simp at h
  · rename_i i0 h1
    split at h
    · simp at h
    · simp at h; obtain ⟨hi, _⟩ := h; subst hi; exact h1

/-- Replacing the found element by one with the same visibility and enablement
leaves the clickability wait resolving to the replacement. -/
theorem waitClickable?_setElem {d : DOM} {x : String} {i : Nat} {e : Elem}
    (h : d.waitClickable? x = some (i, e)) (e2 : Elem)
    (hd : e2.displayed = e.displayed) (hn : e2.enabled = e.enabled) :
    (d.setElem i e2).waitClickable? x = some (i, e2) := by
  obtain ⟨hf, hdisp, hen⟩ := waitClickable?_findFirst h
  have he := findFirst?_elem hf
  have hh := findFirst?_head hf
  have hlen : i < d.elems.length := by
    rcases List.getElem?_eq_some.mp he with ⟨hl, _⟩
    exact hl
  have hq : (d.setElem i e2).findElements x = d.findElements x := rfl
  have hget : (d.setElem i e2).elems[i]? = some e2 := by
    simp only [DOM.setElem]
    exact List.getElem?_set_eq_of_lt e2 hlen
  unfold DOM.waitClickable? DOM.findFirst?
  rw [hq, hh]
  simp [hget, hd, hn, hdisp, hen]

/-- Clear-then-write does not change visibility. -/
theorem sendClear_displayed (e : Elem) (v : String) :
    (sendKeysElem (clearElem e) v).displayed = e.displayed := by
  unfold sendKeysElem clearElem; split <;> rfl

/-- Clear-then-write does not change enablement. -/
theorem sendClear_enabled (e : Elem) (v : String) :
    (sendKeysElem (clearElem e) v).enabled = e.enabled := by
  unfold sendKeysElem clearElem; split <;> rfl

/-- Clear-then-write twice with the same keys equals clear-then-write once. -/
theorem sendClear_idem (e : Elem) (v : String) :
    sendKeysElem (clearElem (sendKeysElem (clearElem e) v)) v = sendKeysElem (clearElem e) v := by
  unfold sendKeysElem clearElem
  cases h : e.accepts <;> simp [h]

/-- Characterization of the page state left by fill_text_input. -/
theorem fill_dom (b : Bot) (x v desc : String) :
    (fill_text_input b x v desc).1.dom
      = (match b.dom.waitClickable? x with
         | none => b.dom
         | some (i, e) => b.dom.setElem i (sendKeysElem (clearElem e) v)) := by
  cases h : b.dom.waitClickable? x <;> simp [fill_text_input, h, logStep]

/-- Resolution of the radio and dropdown find_element loops: some selector is
accepted exactly when some selector in the list has a displayed first match. -/
theorem firstSelectorHit_isSome (d : DOM) (sels : List String) :
    (firstSelectorHit d sels).isSome = sels.any (headDisplayed d) := by
  induction sels with
  | nil => simp [firstSelectorHit]
  | cons s rest ih =>
    simp only [firstSelectorHit, List.any_cons, headDisplayed]
    cases h : d.findFirst? s
    · simpa using ih
    · rename_i p
      obtain ⟨i, e⟩ := p
      cases he : e.displayed <;> simp [he, ih]

/-- Resolution of the submit find_element loop: some selector is accepted
exactly when some selector in the list has a displayed, enabled first match. -/
theorem firstClickableHit_isSome (d : DOM) (sels : List String) :
    (firstClickableHit d sels).isSome = sels.any (headClickable d) := by
  induction sels with
  | nil => simp [firstClickableHit]
  | cons s rest ih =>
    simp only [firstClickableHit, List.any_cons, headClickable]
    cases h : d.findFirst? s
    · simpa using ih
    · rename_i p
      obtain ⟨i, e⟩ := p
      cases he : (e.displayed && e.enabled) <;> simp [he, ih]

/-- Log delta of fill_text_input: exactly one step record, named after the
description, with the error and success fields untouched. -/
theorem fill_log_parts (b : Bot) (x v desc : String) :
    (fill_text_input b x v desc).1.log.steps.map LogEntry.step
      = b.log.steps.map LogEntry.step ++ [fillStepName desc]
    ∧ (fill_text_input b x v desc).1.log.error = b.log.error
    ∧ (fill_text_input b x v desc).1.log.success = b.log.success := by
  cases h : b.dom.waitClickable? x <;> simp [fill_text_input, h, logStep]

/-- Log delta of handle_microsoft_dropdown: exactly one step record, named
after the description, with the error and success fields untouched. -/
theorem dropdown_log_parts (B : Behavior) (b : Bot) (x t desc : String) :
    (handle_microsoft_dropdown B b x t desc).1.log.steps.map LogEntry.step
      = b.log.steps.map LogEntry.step ++ [dropdownStepName desc]
    ∧ (handle_microsoft_dropdown B b x t desc).1.log.error = b.log.error
    ∧ (handle_microsoft_dropdown B b x t desc).1.log.success = b.log.success := by
  cases h : b.dom.waitClickable? x
  · simp [handle_microsoft_dropdown, h, logStep]
  · rename_i p
    obtain ⟨i, e⟩ := p
    cases h1 : firstExactVisible (B.clickEffect b.dom i)
        ((B.clickEffect b.dom i).findElements (containsTextSel t)) t
    · cases h2 : firstSelectorHit (B.clickEffect b.dom i) (optionSelectors t)
      · simp [handle_microsoft_dropdown, h, clickElem, h1, h2, logStep, actionSend, actionEnterKey]
      · rename_i q
        obtain ⟨j, e2⟩ := q
        simp [handle_microsoft_dropdown, h, clickElem, h1, h2, logStep]
    · rename_i q
      obtain ⟨j, e2⟩ := q
      simp [handle_microsoft_dropdown, h, clickElem, h1, logStep]

/-- Log delta of handle_radio_button: exactly one radio_button step record,
with the error and success fields untouched. -/
theorem radio_log_parts (B : Behavior) (b : Bot) (vt desc : String) :
    (handle_radio_button B b vt desc).1.log.steps.map LogEntry.step
      = b.log.steps.map LogEntry.step ++ [("radio_button" : String)]
    ∧ (handle_radio_button B b vt desc).1.log.error = b.log.error
    ∧ (handle_radio_button B b vt desc).1.log.success = b.log.success := by
  cases h : firstSelectorHit b.dom (radioSelectors vt)
  · cases h1 : b.dom.findFirst? (containsTextSel vt)
    · simp [handle_radio_button, h, h1, logStep]
    · rename_i q
      obtain ⟨j, e2⟩ := q
      cases h2 : e2.displayed <;>
        simp [handle_radio_button, h, h1, h2, logStep, clickElem]
  · rename_i p
    obtain ⟨i, e⟩ := p
    simp [handle_radio_button, h, logStep, clickElem]

/-- Log delta of the page-1 phase: the four field step records in order. -/
theorem page1_log_parts (B : Behavior) (b : Bot) (fd : FormData) :
    (page1Fill B b fd).log.steps.map LogEntry.step
      = b.log.steps.map LogEntry.step
        ++ [fillStepName ("Visitor Name"), dropdownStepName ("Access Level"),
            dropdownStepName ("Purpose"), fillStepName ("Additional Information")]
    ∧ (page1Fill B b fd).log.error = b.log.error
    ∧ (page1Fill B b fd).log.success = b.log.success := by
  unfold page1Fill
  obtain ⟨s1, e1, u1⟩ := fill_log_parts b nameInputXpath fd.name ("Visitor Name")
  obtain ⟨s2, e2, u2⟩ := dropdown_log_parts B
    (fill_text_input b nameInputXpath fd.name ("Visitor Name")).1
    accessXpath fd.access_level ("Access Level")
  obtain ⟨s3, e3, u3⟩ := dropdown_log_parts B
    (handle_microsoft_dropdown B (fill_text_input b nameInputXpath fd.name ("Visitor Name")).1
      accessXpath fd.access_level ("Access Level")).1
    purposeXpath fd.purpose ("Purpose")
  obtain ⟨s4, e4, u4⟩ := fill_log_parts
    (handle_microsoft_dropdown B
      (handle_microsoft_dropdown B (fill_text_input b nameInputXpath fd.name ("Visitor Name")).1
        accessXpath fd.access_level ("Access Level")).1
      purposeXpath fd.purpose ("Purpose")).1
    addInfoXpath fd.additional_info ("Additional Information")
  refine ⟨?_, ?_, ?_⟩
  · rw [s4, s3, s2, s1]
    simp
  · rw [e4, e3, e2, e1]
  · rw [u4, u3, u2, u1]

/-- Exception escape of automate_form happens exactly when the page anchor is
absent from the loaded page. -/
theorem automate_raised (B : Behavior) (d : DOM) (fd : FormData) :
    (automate_form B (mkBot d) fd).2 = (d.findElements pageAnchorSel).isEmpty := by
  cases h : (d.findElements pageAnchorSel).isEmpty <;>
    simp [automate_form, wait_for_page_load, mkBot, h, logStep]

/-- Success flag of the execution log is set whenever the page anchor was
present, independently of every field interaction. -/
theorem automate_success_of_load (B : Behavior) (d : DOM) (fd : FormData)
    (h : (d.findElements pageAnchorSel).isEmpty = false) :
    (automate_form B (mkBot d) fd).1.log.success = true := by
  simp [automate_form, wait_for_page_load, mkBot, h, logStep]

/-- Exit code of main is determined by the page anchor alone. -/
theorem main_eq (B : Behavior) (d : DOM) (fd : FormData) :
    main B d fd = (if (d.findElements pageAnchorSel).isEmpty then 1 else 0) := by
  have hr := automate_raised B d fd
  unfold main
  cases h2 : automate_form B (mkBot d) fd
  rename_i bot2 flag
  cases flag <;> rw [h2] at hr <;> simp at hr <;> simp [hr]

/-- Shape of the radio phase when both radio value variants fail: the second
radio attempt is the final state, and click_next_button is never entered. -/
theorem radioPhase_gate (B : Behavior) (b : Bot) (fd : FormData)
    (hrad : (b.dom.findElements radioTypeSel).isEmpty = false)
    (h1 : (handle_radio_button B b ("Yes") ("Locally Registered Number")).2 = false)
    (h2 : (handle_radio_button B (handle_radio_button B b ("Yes") ("Locally Registered Number")).1
        chineseYes ("Locally Registered Number (Chinese)")).2 = false) :
    radioPhase B b fd
      = (handle_radio_button B (handle_radio_button B b ("Yes") ("Locally Registered Number")).1
          chineseYes ("Locally Registered Number (Chinese)")).1 := by
  unfold radioPhase
  simp [hrad, h1, h2]

/-- Success of handle_radio_button is equivalent to some selector of the six
(five strategies plus the text-node fallback) having a displayed first match:
failures of earlier selectors, whether thrown or mere misses, do not affect
the outcome. -/
theorem handle_radio_snd (B : Behavior) (b : Bot) (vt desc : String) :
    (handle_radio_button B b vt desc).2
      = ((radioSelectors vt ++ [containsTextSel vt]).any fun s => headDisplayed b.dom s) := by
  rw [List.any_append]
  cases h : firstSelectorHit b.dom (radioSelectors vt)
  · have hs : (radioSelectors vt).any (headDisplayed b.dom) = false := by
      have hh := firstSelectorHit_isSome b.dom (radioSelectors vt)
      rw [h] at hh
      simpa using hh.symm
    rw [hs]
    cases h1 : b.dom.findFirst? (containsTextSel vt)
    · simp [handle_radio_button, h, h1, logStep, headDisplayed]
    · rename_i p
      obtain ⟨i, e⟩ := p
      cases h2 : e.displayed <;>
        simp [handle_radio_button, h, h1, h2, logStep, clickElem, headDisplayed]
  · rename_i p
    obtain ⟨i, e⟩ := p
    have hs : (radioSelectors vt).any (headDisplayed b.dom) = true := by
      have hh := firstSelectorHit_isSome b.dom (radioSelectors vt)
      rw [h] at hh
      simpa using hh.symm
    rw [hs]
    simp [handle_radio_button, h, logStep, clickElem]

/-- Claim C1, counterexample: on a run over a page exposing no Submit control
(every submit-locator candidate resolves to nothing, before and after the run)
the execution log still reports success, no exception escapes, and main exits
with code 0 — the claimed failure status does not occur. -/
theorem submit_candidates_fail_yet_success :
    (submitSelectors.all fun s =>
        !headClickable ((automate_form idBehavior (mkBot domNoSubmit) fd0).1.dom) s) = true
    ∧ (submitSelectors.all fun s => !headClickable domNoSubmit s) = true
    ∧ (automate_form idBehavior (mkBot domNoSubmit) fd0).1.log.success = true
    ∧ (automate_form idBehavior (mkBot domNoSubmit) fd0).2 = false
    ∧ main idBehavior domNoSubmit fd0 = 0 := by
  decide

/-- Claim C1 (amended): when no submit-locator candidate yields a displayed,
enabled element, click_submit_button reports failure, but that failure does
not propagate: the only failure that escapes automate_form as a run-level
failure is the initial page-load failure (absence of the page anchor), and a
submit failure leaves the run reporting success. -/
theorem submit_failure_never_propagates :
    (∀ (B : Behavior) (b : Bot),
      (∀ s ∈ submitSelectors, headClickable b.dom s = false) →
      (click_submit_button B b).2 = false)
    ∧ (∀ (B : Behavior) (d : DOM) (fd : FormData),
      (automate_form B (mkBot d) fd).2 = (d.findElements pageAnchorSel).isEmpty) := by
  constructor
  · intro B b h
    have hany : submitSelectors.any (headClickable b.dom) = false := by
      rw [List.any_eq_false]
      intro s hs
      simp [h s hs]
    have hnone : firstClickableHit b.dom submitSelectors = none := by
      have hh := firstClickableHit_isSome b.dom submitSelectors
      rw [hany] at hh
      exact Option.not_isSome_iff_eq_none.mp (by simp [hh])
    simp [click_submit_button, hnone]
  · exact automate_raised

/-- Claim C1, witness: the amended theorem applied to the concrete page with
no Submit control. -/
theorem submit_failure_never_propagates_witness :
    (click_submit_button idBehavior (mkBot domNoSubmit)).2 = false
    ∧ (automate_form idBehavior (mkBot domNoSubmit) fd0).2
        = (domNoSubmit.findElements pageAnchorSel).isEmpty :=
  ⟨submit_failure_never_propagates.1 idBehavior (mkBot domNoSubmit) (by decide),
   submit_failure_never_propagates.2 idBehavior domNoSubmit fd0⟩

/-- Claim C2, counterexample: on an input that silently drops keystrokes,
fill_text_input reports success although the read-back of the control does not
contain the written value — the operation performs no read-back verification. -/
theorem fill_reports_success_without_readback :
    (fill_text_input (mkBot domDeafInput) nameInputXpath ("hello") ("Visitor Name")).2 = true
    ∧ strContains
        (((fill_text_input (mkBot domDeafInput) nameInputXpath ("hello") ("Visitor Name")).1.dom.elems[0]?.getD
            default).value)
        ("hello") = false := by
  decide

/-- Claim C2 (amended): fill_text_input waits for actionability, clears the
control and writes the value, but performs no read-back: it succeeds exactly
when the clickability wait succeeds, regardless of the resulting value of the
control. -/
theorem fill_text_input_no_readback : ∀ (b : Bot) (x v desc : String),
    ((fill_text_input b x v desc).2 = (b.dom.waitClickable? x).isSome)
    ∧ (∀ i e, b.dom.waitClickable? x = some (i, e) →
        (fill_text_input b x v desc).1.dom.elems[i]? = some (sendKeysElem (clearElem e) v)) := by
  intro b x v desc
  constructor
  · cases h : b.dom.waitClickable? x <;> simp [fill_text_input, h]
  · intro i e h
    have he := findFirst?_elem (waitClickable?_findFirst h).1
    have hlen : i < b.dom.elems.length := by
      rcases List.getElem?_eq_some.mp he with ⟨hl, _⟩
      exact hl
    simp [fill_text_input, h, DOM.setElem, logStep]
    exact List.getElem?_set_eq_of_lt _ hlen

/-- Claim C2, witness: the amended theorem applied to a page with one
fillable input. -/
theorem fill_text_input_no_readback_witness :
    (fill_text_input (mkBot domOneInput) nameInputXpath ("hello") ("Visitor Name")).1.dom.elems[0]?
      = some (sendKeysElem (clearElem (liveElem "x")) ("hello")) :=
  (fill_text_input_no_readback (mkBot domOneInput) nameInputXpath ("hello") ("Visitor Name")).2
    0 (liveElem "x") (by decide)

/-- Claim C3, counterexample: on a page where strategies 1 and 2 find nothing
and keyboard input has no effect at all, handle_microsoft_dropdown still
reports success through strategy 3, with the page state after the run equal to
the page state before it — success is reported without any visible state
change consistent with selection. -/
theorem dropdown_keyboard_blind_success :
    (handle_microsoft_dropdown idBehavior (mkBot domBareDropdown) accessXpath ("5")
        ("Access Level")).2 = some 3
    ∧ (handle_microsoft_dropdown idBehavior (mkBot domBareDropdown) accessXpath ("5")
        ("Access Level")).1.dom = domBareDropdown := by
  decide

/-- Claim C3 (amended): the three strategies are attempted in strict priority
order, each only if the previous found nothing, but success does not require
an observable selection effect: strategy 3 reports success unconditionally, so
the operation succeeds exactly when the dropdown trigger is clickable. -/
theorem dropdown_strategy_order : ∀ (B : Behavior) (b : Bot) (x t desc : String),
    (((handle_microsoft_dropdown B b x t desc).2).isSome = (b.dom.waitClickable? x).isSome)
    ∧ (∀ i e, b.dom.waitClickable? x = some (i, e) →
        (((handle_microsoft_dropdown B b x t desc).2 = some 2 →
           firstExactVisible (clickElem B b i).dom
             ((clickElem B b i).dom.findElements (containsTextSel t)) t = none)
         ∧ ((handle_microsoft_dropdown B b x t desc).2 = some 3 →
           firstExactVisible (clickElem B b i).dom
             ((clickElem B b i).dom.findElements (containsTextSel t)) t = none
           ∧ firstSelectorHit (clickElem B b i).dom (optionSelectors t) = none))) := by
  intro B b x t desc
  cases h : b.dom.waitClickable? x
  · constructor
    · simp [handle_microsoft_dropdown, h, logStep]
    · intro i e h2
      exact absurd h2 (by simp)
  · rename_i p
    obtain ⟨i0, e0⟩ := p
    have hcases : ∀ (i : Nat) (e : Elem),
        (some (i0, e0) : Option (Nat × Elem)) = some (i, e) → i = i0 ∧ e = e0 := by
      intro i e h2
      have h3 := h2
      simp at h3
      exact ⟨h3.1.symm, h3.2.symm⟩
    cases h1 : firstExactVisible (B.clickEffect b.dom i0)
        ((B.clickEffect b.dom i0).findElements (containsTextSel t)) t
    · cases h2 : firstSelectorHit (B.clickEffect b.dom i0) (optionSelectors t)
      · constructor
        · simp [handle_microsoft_dropdown, h, clickElem, h1, h2, logStep, actionSend, actionEnterKey]
        · intro i e hie
          obtain ⟨hi, he⟩ := hcases i e hie
          subst hi
          constructor
          · intro _
            simpa [clickElem] using h1
          · intro _
            exact ⟨by simpa [clickElem] using h1, by simpa [clickElem] using h2⟩
      · rename_i q
        obtain ⟨j, e2⟩ := q
        constructor
        · simp [handle_microsoft_dropdown, h, clickElem, h1, h2, logStep]
        · intro i e hie
          obtain ⟨hi, he⟩ := hcases i e hie
          subst hi
          constructor
          · intro _
            simpa [clickElem] using h1
          · intro habs
            have hres : (handle_microsoft_dropdown B b x t desc).2 = some 2 := by
              simp [handle_microsoft_dropdown, h, clickElem, h1, h2, logStep]
            rw [hres] at habs
            simp at habs
    · rename_i q
      obtain ⟨j, e2⟩ := q
      constructor
      · simp [handle_microsoft_dropdown, h, clickElem, h1, logStep]
      · intro i e hie
        obtain ⟨hi, he⟩ := hcases i e hie
        subst hi
        have hres : (handle_microsoft_dropdown B b x t desc).2 = some 1 := by
          simp [handle_microsoft_dropdown, h, clickElem, h1, logStep]
        constructor
        · intro habs
          rw [hres] at habs
          simp at habs
        · intro habs
          rw [hres] at habs
          simp at habs

/-- Claim C3, witness: the amended theorem applied to the bare dropdown page,
where strategy 3 was used only after strategies 1 and 2 found nothing. -/
theorem dropdown_strategy_order_witness :
    firstExactVisible (clickElem idBehavior (mkBot domBareDropdown) 0).dom
        ((clickElem idBehavior (mkBot domBareDropdown) 0).dom.findElements (containsTextSel ("5")))
        ("5") = none
    ∧ firstSelectorHit (clickElem idBehavior (mkBot domBareDropdown) 0).dom
        (optionSelectors ("5")) = none :=
  ((dropdown_strategy_order idBehavior (mkBot domBareDropdown) accessXpath ("5")
      ("Access Level")).2 0 (liveElem "") (by decide)).2 (by decide)

/-- Claim C4, counterexample: a candidate that resolves to a hidden first
match and a visible second match does not yield that visible element — the
radio location fails although the candidate resolves to a visible element in
second position. -/
theorem locate_skips_later_visible_match :
    domHiddenFirstRadio.findElements (valueRadioSel ("Yes")) = [0, 1]
    ∧ (domHiddenFirstRadio.elems[1]?.getD default).displayed = true
    ∧ (handle_radio_button idBehavior (mkBot domHiddenFirstRadio) ("Yes")
        ("Locally Registered Number")).2 = false := by
  decide

/-- Claim C4 (amended): candidates are tried in order, but only the first
document-order match of each candidate is ever examined: when every
candidate's first match is missing or hidden, location fails, even if some
candidate resolves to a visible element later in document order. -/
theorem locate_head_only : ∀ (B : Behavior) (b : Bot) (vt desc : String),
    (∀ s ∈ radioSelectors vt ++ [containsTextSel vt], headDisplayed b.dom s = false) →
    (handle_radio_button B b vt desc).2 = false := by
  intro B b vt desc h
  rw [handle_radio_snd]
  rw [List.any_eq_false]
  intro s hs
  simp [h s hs]

/-- Claim C4, witness: the amended theorem applied to the page whose only
resolving candidate has a hidden first match. -/
theorem locate_head_only_witness :
    (handle_radio_button idBehavior (mkBot domHiddenFirstRadio) ("Yes")
        ("Locally Registered Number")).2 = false :=
  locate_head_only idBehavior (mkBot domHiddenFirstRadio) ("Yes")
    ("Locally Registered Number") (by decide)

/-- Claim C5 (confirmed): when the page loaded, radio inputs are present, and
both radio value variants (Yes and the Chinese variant) fail, the run never
invokes the Next-button click (no click_next step is ever logged, and
click_next_button logs one on every invocation), terminates without an
exception, and reports no error. -/
theorem consent_gate_no_next : ∀ (B : Behavior) (d : DOM) (fd : FormData),
    (d.findElements pageAnchorSel).isEmpty = false →
    ((page1Fill B (wait_for_page_load (mkBot d)).1 fd).dom.findElements radioTypeSel).isEmpty = false →
    (handle_radio_button B (page1Fill B (wait_for_page_load (mkBot d)).1 fd)
        ("Yes") ("Locally Registered Number")).2 = false →
    (handle_radio_button B
        (handle_radio_button B (page1Fill B (wait_for_page_load (mkBot d)).1 fd)
          ("Yes") ("Locally Registered Number")).1
        chineseYes ("Locally Registered Number (Chinese)")).2 = false →
    ((automate_form B (mkBot d) fd).2 = false
     ∧ (automate_form B (mkBot d) fd).1.log.error = none
     ∧ (((automate_form B (mkBot d) fd).1.log.steps.map LogEntry.step).all
          (fun n => n != "click_next")) = true) := by
  intro B d fd hload hrad h1 h2
  have hw : wait_for_page_load (mkBot d)
      = (logStep (mkBot d) ("page_load") ("success") ("Page loaded"), true) := by
    simp [wait_for_page_load, mkBot, hload]
  rw [hw] at hrad h1 h2
  have hauto : automate_form B (mkBot d) fd
      = ({ (radioPhase B (page1Fill B (logStep (mkBot d) ("page_load") ("success") ("Page loaded")) fd) fd) with
           log := { (radioPhase B (page1Fill B (logStep (mkBot d) ("page_load") ("success") ("Page loaded")) fd) fd).log with
                    success := true } }, false) := by
    unfold automate_form
    rw [hw]
  have hgate := radioPhase_gate B
    (page1Fill B (logStep (mkBot d) ("page_load") ("success") ("Page loaded")) fd) fd hrad h1 h2
  rw [hauto, hgate]
  set b1 : Bot := logStep (mkBot d) ("page_load") ("success") ("Page loaded") with hb1
  obtain ⟨ps, pe, pu⟩ := page1_log_parts B b1 fd
  obtain ⟨rs1, re1, ru1⟩ := radio_log_parts B (page1Fill B b1 fd) ("Yes") ("Locally Registered Number")
  obtain ⟨rs2, re2, ru2⟩ := radio_log_parts B
    (handle_radio_button B (page1Fill B b1 fd) ("Yes") ("Locally Registered Number")).1
    chineseYes ("Locally Registered Number (Chinese)")
  refine ⟨rfl, ?_, ?_⟩
  · show (handle_radio_button B
        (handle_radio_button B (page1Fill B b1 fd) ("Yes") ("Locally Registered Number")).1
        chineseYes ("Locally Registered Number (Chinese)")).1.log.error = none
    rw [re2, re1, pe]
    simp [hb1, logStep, mkBot]
  · show (((handle_radio_button B
        (handle_radio_button B (page1Fill B b1 fd) ("Yes") ("Locally Registered Number")).1
        chineseYes ("Locally Registered Number (Chinese)")).1.log.steps.map LogEntry.step).all
          (fun n => n != "click_next")) = true
    rw [rs2, rs1, ps]
    have hb1s : b1.log.steps.map LogEntry.step
        = [("browser_init" : String), ("page_load" : String)] := by
      simp [hb1, logStep, mkBot]
    rw [hb1s]
    decide

/-- Claim C5, witness: the theorem applied to the page whose only radio input
is hidden, so both value variants fail. -/
theorem consent_gate_no_next_witness :
    ((automate_form idBehavior (mkBot domHiddenRadioOnly) fd0).2 = false
     ∧ (automate_form idBehavior (mkBot domHiddenRadioOnly) fd0).1.log.error = none
     ∧ (((automate_form idBehavior (mkBot domHiddenRadioOnly) fd0).1.log.steps.map LogEntry.step).all
          (fun n => n != "click_next")) = true) :=
  consent_gate_no_next idBehavior domHiddenRadioOnly fd0
    (by decide) (by decide) (by decide) (by decide)

/-- Claim C6, counterexample: with a click whose navigation produces a page on
which the anchor element never appears again, click_next_button still reports
success — no anchor-based page-change detection takes place. -/
theorem click_next_success_without_anchor :
    (click_next_button blankClickBehavior (mkBot domNextOnly)).2 = true
    ∧ ((click_next_button blankClickBehavior (mkBot domNextOnly)).1.dom.findElements
        pageAnchorSel).isEmpty = true := by
  decide

/-- Claim C6 (amended): click_next_button waits for the Next control, clicks
it and sleeps a fixed interval; it reports success exactly when the
clickability wait succeeded, performing no page-change detection, and on
failure returns false to the caller (which then skips the remaining pages)
rather than entering a failed run state. -/
theorem click_next_no_page_change_detection : ∀ (B : Behavior) (b : Bot),
    (click_next_button B b).2 = (b.dom.waitClickable? nextButtonSel).isSome := by
  intro B b
  cases h : b.dom.waitClickable? nextButtonSel <;> simp [click_next_button, h]

/-- Claim C7, counterexample: during the mobile-field scan the first candidate
(which drops keystrokes, so its read-back fails) is cleared and left modified
— its value changes from peek to empty — while the second candidate is
accepted; failed candidates are not left untouched. -/
theorem mobile_scan_touches_failed_candidate :
    (domTwoMobileInputs.elems[0]?.getD default).value = "peek"
    ∧ ((handle_mobile_number_page idBehavior (mkBot domTwoMobileInputs) fd0).dom.elems[0]?.getD
        default).value = ""
    ∧ ((handle_mobile_number_page idBehavior (mkBot domTwoMobileInputs) fd0).dom.elems[1]?.getD
        default).value = fd0.mobile := by
  decide

/-- Claim C7 (amended): the scan accepts the first element whose read-back
contains the intended value and stops there, leaving candidates after the
accepted one and candidates skipped by the display, enablement or emptiness
checks untouched; candidates attempted before the accepted one, however, are
cleared and rewritten even when their read-back fails. -/
theorem mobile_scan_first_accept : ∀ (b : Bot) (i : Nat) (rest : List Nat)
    (emptySearch : Bool) (mob : String),
    ((tryMobileElem b i emptySearch mob).2 = true →
      tryMobileElems b (i :: rest) emptySearch mob = tryMobileElem b i emptySearch mob)
    ∧ (∀ e, b.dom.elems[i]? = some e → (e.displayed && e.enabled) = false →
        tryMobileElem b i emptySearch mob = (b, false)) := by
  intro b i rest emptySearch mob
  constructor
  · intro h
    cases h2 : tryMobileElem b i emptySearch mob
    rename_i b1 flag
    rw [h2] at h
    simp at h
    subst h
    simp [tryMobileElems, h2]
  · intro e he hde
    simp [tryMobileElem, he, hde]

/-- Claim C7, witness: the amended theorem applied to the two-input mobile
page (accepting element 1 stops the scan) and to a hidden element (skipped
untouched). -/
theorem mobile_scan_first_accept_witness :
    tryMobileElems (mkBot domTwoMobileInputs) [1, 0] false ("87686853")
      = tryMobileElem (mkBot domTwoMobileInputs) 1 false ("87686853")
    ∧ tryMobileElem (mkBot domHiddenFirstRadio) 0 false ("87686853")
      = (mkBot domHiddenFirstRadio, false) :=
  ⟨(mobile_scan_first_accept (mkBot domTwoMobileInputs) 1 [0] false ("87686853")).1 (by decide),
   (mobile_scan_first_accept (mkBot domHiddenFirstRadio) 0 [] false ("87686853")).2
     hiddenElem (by decide) (by decide)⟩

/-- Claim C8 (confirmed): radio selection succeeds exactly when one of its six
selectors, tried in the fixed source order (value attribute, label text, the
three DOM-proximity variants, then the bare text node), has a displayed first
match — failures of earlier selectors, thrown or not, are swallowed and never
affect the outcome — and the first accepted selector has its element clicked,
first success winning. -/
theorem radio_strategy_order : ∀ (B : Behavior) (b : Bot) (vt desc : String),
    ((handle_radio_button B b vt desc).2
       = ((radioSelectors vt ++ [containsTextSel vt]).any fun s => headDisplayed b.dom s))
    ∧ (∀ i e, firstSelectorHit b.dom (radioSelectors vt) = some (i, e) →
        (handle_radio_button B b vt desc).1.trace = b.trace ++ [Event.click i]
        ∧ (handle_radio_button B b vt desc).2 = true) := by
  intro B b vt desc
  refine ⟨handle_radio_snd B b vt desc, ?_⟩
  intro i e h
  constructor <;> simp [handle_radio_button, h, logStep, clickElem]

/-- Claim C8, witness: the theorem applied to a page on which the first
selector throws (resolves to nothing) and the second (label) succeeds. -/
theorem radio_strategy_order_witness :
    (handle_radio_button idBehavior (mkBot domLabelRadio) ("Yes") ("d")).1.trace
      = (mkBot domLabelRadio).trace ++ [Event.click 0]
    ∧ (handle_radio_button idBehavior (mkBot domLabelRadio) ("Yes") ("d")).2 = true :=
  (radio_strategy_order idBehavior (mkBot domLabelRadio) ("Yes") ("d")).2
    0 (liveElem "") (by decide)

/-- Claim C9 (confirmed): fill_text_input is idempotent on the page — calling
it twice with the same value leaves the page exactly as one call does — and on
an element that accepts keystrokes the stored value after the two calls is the
written value itself, not the value doubled (clear-then-write semantics). -/
theorem fill_text_input_idempotent : ∀ (b : Bot) (x v desc : String),
    ((fill_text_input (fill_text_input b x v desc).1 x v desc).1.dom
       = (fill_text_input b x v desc).1.dom)
    ∧ (∀ i e, b.dom.waitClickable? x = some (i, e) → e.accepts = true →
        (fill_text_input (fill_text_input b x v desc).1 x v desc).1.dom.elems[i]?
          = some { e with value := v }) := by
  intro b x v desc
  cases h : b.dom.waitClickable? x
  · have hstep1 : (fill_text_input b x v desc).1.dom = b.dom := by
      rw [fill_dom, h]
    have hstep2 : (fill_text_input (fill_text_input b x v desc).1 x v desc).1.dom
        = (fill_text_input b x v desc).1.dom := by
      rw [fill_dom, hstep1, h]
    exact ⟨hstep2, fun i e h2 => absurd h2 (by simp)⟩
  · rename_i p
    obtain ⟨i, e⟩ := p
    have hw2 := waitClickable?_setElem h (sendKeysElem (clearElem e) v)
      (sendClear_displayed e v) (sendClear_enabled e v)
    have he := findFirst?_elem (waitClickable?_findFirst h).1
    have hlen : i < b.dom.elems.length := by
      rcases List.getElem?_eq_some.mp he with ⟨hl, _⟩
      exact hl
    have hstep1 : (fill_text_input b x v desc).1.dom
        = b.dom.setElem i (sendKeysElem (clearElem e) v) := by
      rw [fill_dom, h]
    have hstep2 : (fill_text_input (fill_text_input b x v desc).1 x v desc).1.dom
        = b.dom.setElem i (sendKeysElem (clearElem e) v) := by
      rw [fill_dom, hstep1, hw2]
      simp [sendClear_idem, DOM.setElem, List.set_set]
    constructor
    · rw [hstep2, hstep1]
    · intro j e2 h2 hacc
      have h2i : i = j ∧ e = e2 := by simpa using h2
      obtain ⟨hj, he2⟩ := h2i
      subst hj; subst he2
      rw [hstep2]
      have hget : (b.dom.setElem i (sendKeysElem (clearElem e) v)).elems[i]?
          = some (sendKeysElem (clearElem e) v) := by
        simp only [DOM.setElem]
        exact List.getElem?_set_eq_of_lt _ hlen
      rw [hget]
      unfold sendKeysElem clearElem
      simp [hacc]

/-- Claim C9, witness: the theorem applied to a page with one fillable input
holding the value x beforehand. -/
theorem fill_text_input_idempotent_witness :
    (fill_text_input
        (fill_text_input (mkBot domOneInput) nameInputXpath ("hello") ("Visitor Name")).1
        nameInputXpath ("hello") ("Visitor Name")).1.dom.elems[0]?
      = some { liveElem "x" with value := "hello" } :=
  (fill_text_input_idempotent (mkBot domOneInput) nameInputXpath ("hello") ("Visitor Name")).2
    0 (liveElem "x") (by decide) (by decide)

/-- Claim C10 (confirmed): whenever the initial page load succeeds (the page
anchor is present), no exception escapes automate_form, the execution log has
its success flag set, and main returns exit code 0, for every driver behavior
and page — that is, regardless of the outcome of every field fill, dropdown
selection, radio selection, Next click or Submit click. -/
theorem run_success_independent_of_field_results : ∀ (B : Behavior) (d : DOM) (fd : FormData),
    (d.findElements pageAnchorSel).isEmpty = false →
    ((automate_form B (mkBot d) fd).2 = false
     ∧ (automate_form B (mkBot d) fd).1.log.success = true
     ∧ main B d fd = 0) := by
  intro B d fd h
  refine ⟨?_, automate_success_of_load B d fd h, ?_⟩
  · rw [automate_raised]
    exact h
  · rw [main_eq, h]
    simp

/-- Claim C10, witness: the theorem applied to a page containing only the
anchor, on which every field interaction fails. -/
theorem run_success_independent_witness :
    ((automate_form idBehavior (mkBot domAnchorOnly) fd0).2 = false
     ∧ (automate_form idBehavior (mkBot domAnchorOnly) fd0).1.log.success = true
     ∧ main idBehavior domAnchorOnly fd0 = 0) :=
  run_success_independent_of_field_results idBehavior domAnchorOnly fd0 (by decide)

end FormBot
